import Mathlib

/-!
Verification of the action-permission policy evaluator of
`allianceutils/api/permissions.py` (django-allianceutils).

The Python module defines three permission classes:
* `SimpleDjangoObjectPermissions` - a single required permission checked
  globally and/or against a concrete object, with an assertion that the
  global and the object-scoped check never both grant;
* `GenericDjangoViewsetPermissions` - maps viewset actions to lists of
  permission-string templates (substituting `app_label` / `model_name`),
  with a debug-mode OPTIONS bypass, a list-action set that skips object
  resolution, and `ImproperlyConfigured` errors for unmapped actions;
* `GenericDjangoViewsetWithoutModelPermissions` - the model-less variant:
  caller-supplied map, verbatim permission strings, `None` action granted.

The embedding below translates these classes faithfully:
* the Django `user` object is opaque data: its `has_perm` / `has_perms`
  capabilities (with and without an object argument) are arbitrary functions
  supplied by the host;
* Python exceptions become `Except` results (`PermError` distinguishes
  `ImproperlyConfigured` from an exception propagating out of
  `viewset.get_object()`); the Python `assert` in
  `SimpleDjangoObjectPermissions.has_object_permission` becomes an
  `Except.error` result;
* Python dicts keyed by action name become association lists; `dict.update`
  becomes `dictUpdate` (keys present in the override are replaced in place,
  new keys are appended);
* Python percent-formatting `perm % {app_label, model_name}` becomes
  `pyFormat`, a fuel-based literal string replacement of the two patterns
  `%(app_label)s` and `%(model_name)s`;
* `settings.DEBUG` becomes an explicit `debug : Bool` argument where the
  source reads it.
-/

/-- The Django user as seen by this module: opaque permission-checking
capabilities supplied by the host framework. `O` is the type of model
instances. `has_perm p` models `user.has_perm(p)` (global single check),
`has_perm_obj p obj` models `user.has_perm(p, obj)`, and similarly for the
`has_perms` plural forms used by the viewset classes. -/
structure User (O : Type) where
  has_perm : String → Bool
  has_perm_obj : String → O → Bool
  has_perms : List String → Bool
  has_perms_obj : List String → O → Bool

/-- The request as consumed by this module: only its HTTP method name is
read (the user is passed separately). -/
structure Request where
  method : String
deriving DecidableEq

/-- One method exposed by the viewset class, as inspected by
`get_list_actions`: its name, `getattr(method, 'bind_to_methods', None)`
(pre-3.9 DRF), the keys of `method.mapping` when the attribute exists
(post-3.9 DRF), and `getattr(method, 'detail', None)`. -/
structure Method where
  name : String
  bind_to_methods : Option (List String)
  mapping : Option (List String)
  detail : Option Bool
deriving DecidableEq

/-- Everything the viewset/host object supplies to the policy classes:
the current `action` (absent modelled as `none`, matching
`getattr(viewset, 'action', None)`), the `app_label` / `model_name` of
`view.get_queryset().model._meta`, the methods visible on the viewset class
(for `get_list_actions` discovery), and the behaviour of
`viewset.get_object()` - either a resolved object or a raised exception
(not found / permission denied), represented by its message. -/
structure Viewset (O : Type) where
  action : Option String
  app_label : String
  model_name : String
  methods : List Method
  get_object : Except String O

/-- Failure modes escaping a permission check: a raised
`ImproperlyConfigured`, or an exception propagating out of
`viewset.get_object()`. -/
inductive PermError where
  | improperlyConfigured : String → PermError
  | objectResolutionError : String → PermError
deriving DecidableEq

/-- An actions-to-permissions map: a Python dict from action name to list of
permission strings, embedded as an insertion-ordered association list. -/
abbrev PermMap := List (String × List String)

deriving instance DecidableEq for Except

/-- Lookup in a Python dict embedded as an association list: the value of
the first entry whose key equals `k`, if any. -/
def dictLookup (m : PermMap) (k : String) : Option (List String) :=
  match m with
  | [] => none
  | (k', v) :: rest => if k' = k then some v else dictLookup rest k

/-- Python `base.copy()` followed by `copy.update(override)`: each key of
`base` that also occurs in `override` keeps its position but takes the
override value; keys of `override` absent from `base` are appended. -/
def dictUpdate (base override : PermMap) : PermMap :=
  (base.map fun kv =>
    match dictLookup override kv.1 with
    | some v => (kv.1, v)
    | none => kv) ++
  override.filter fun kv => (dictLookup base kv.1).isNone

/-- Python `'%s' % x` rendering of the action in error messages:
`str` for a string, `"None"` for `None`. -/
def pyStr : Option String → String
  | some s => s
  | none => "None"

/-- Indexing a string-keyed dict with a possibly-`None` action:
`None` is never a key of the map, so it never matches. -/
def lookupAction (perms_map : PermMap) : Option String → Option (List String)
  | some a => dictLookup perms_map a
  | none => none

/-- One left-to-right pass replacing every non-overlapping occurrence of
`pat` by `repl`, with explicit fuel (one unit per examined character;
`s.length` suffices for a non-empty pattern). -/
def replaceFuel (pat repl : List Char) : Nat → List Char → List Char
  | _, [] => []
  | 0, s => s
  | Nat.succ fuel, c :: rest =>
    if List.isPrefixOf pat (c :: rest) then
      repl ++ replaceFuel pat repl fuel (List.drop (pat.length - 1) rest)
    else
      c :: replaceFuel pat repl fuel rest

/-- String-level replacement of every occurrence of `pat` by `repl`. -/
def strReplace (s pat repl : String) : String :=
  String.mk (replaceFuel pat.data repl.data s.data.length s.data)

/-- Python percent-formatting `perm % {'app_label': ..., 'model_name': ...}`
restricted to the two keys the module uses: substitutes every occurrence of
`%(app_label)s` and `%(model_name)s` in the template. -/
def pyFormat (app_label model_name tmpl : String) : String :=
  strReplace (strReplace tmpl "%(app_label)s" app_label) "%(model_name)s" model_name

/-- Python `s.lower()` restricted to ASCII, as applied to HTTP method
names in `get_list_actions`. -/
def pyLower (s : String) : String :=
  String.mk (s.data.map Char.toLower)

namespace SimpleDjangoObjectPermissions

/-- `SimpleDjangoObjectPermissions.has_permission`:
`return request.user.has_perm(view.permission_required)`. -/
def has_permission {O : Type} (user : User O) (permission_required : String) : Bool :=
  user.has_perm permission_required

/-- The message of the `assert` in `has_object_permission`. -/
def assert_message : String :=
  "Object level and global permissions should not both return True. This may indicate a potential security issue with your permissions."

/-- `SimpleDjangoObjectPermissions.has_object_permission`: asserts that the
object-scoped check and the global check do not both return `True`
(a failing `assert` raises `AssertionError`, modelled as `Except.error`),
then returns the disjunction of the two checks. -/
def has_object_permission {O : Type} (user : User O) (permission_required : String)
    (obj : O) : Except String Bool :=
  if user.has_perm_obj permission_required obj && user.has_perm permission_required then
    Except.error assert_message
  else
    Except.ok (user.has_perm_obj permission_required obj || user.has_perm permission_required)

end SimpleDjangoObjectPermissions

/-- C1: if the object-scoped check and the global check for the required
permission both return true, `has_object_permission` aborts with the
assertion error instead of returning a boolean decision. -/
theorem simple_object_permission_both_grants_aborts {O : Type} (user : User O)
    (permission_required : String) (obj : O)
    (hobj : user.has_perm_obj permission_required obj = true)
    (hglob : user.has_perm permission_required = true) :
    SimpleDjangoObjectPermissions.has_object_permission user permission_required obj =
      Except.error SimpleDjangoObjectPermissions.assert_message := by
  simp [SimpleDjangoObjectPermissions.has_object_permission, hobj, hglob]

/-- A user granting every check, used to witness C1. -/
def allTrueUser : User Unit :=
  ⟨fun _ => true, fun _ _ => true, fun _ => true, fun _ _ => true⟩

/-- Witness for C1 at a concrete user for which both checks return true. -/
theorem simple_object_permission_both_grants_aborts_witness :
    SimpleDjangoObjectPermissions.has_object_permission allTrueUser "app.perm" () =
      Except.error SimpleDjangoObjectPermissions.assert_message :=
  simple_object_permission_both_grants_aborts allTrueUser "app.perm" () rfl rfl

/-- C2: `has_permission` returns true iff the principal holds the required
permission globally; and when the global and object-scoped checks are not
both true, `has_object_permission` returns `ok true` iff the principal holds
the permission globally or scoped to the object. -/
theorem simple_permission_contract {O : Type} (user : User O)
    (permission_required : String) (obj : O) :
    (SimpleDjangoObjectPermissions.has_permission user permission_required = true ↔
      user.has_perm permission_required = true) ∧
    (¬(user.has_perm_obj permission_required obj = true ∧
        user.has_perm permission_required = true) →
      (SimpleDjangoObjectPermissions.has_object_permission user permission_required obj =
          Except.ok true ↔
        (user.has_perm permission_required = true ∨
          user.has_perm_obj permission_required obj = true))) := by
  constructor
  · exact Iff.rfl
  · intro hnot
    have hand : (user.has_perm_obj permission_required obj &&
        user.has_perm permission_required) = false := by
      cases ho : user.has_perm_obj permission_required obj <;>
        cases hg : user.has_perm permission_required <;> simp_all
    simp only [SimpleDjangoObjectPermissions.has_object_permission, hand,
      Bool.false_eq_true, if_false]
    constructor
    · intro h
      have : (user.has_perm_obj permission_required obj ||
          user.has_perm permission_required) = true := by
        exact Except.ok.inj h
      rcases Bool.or_eq_true_iff.mp this with h1 | h2
      · exact Or.inr h1
      · exact Or.inl h2
    · intro h
      rcases h with h1 | h2
      · simp [h1]
      · simp [h2]

/-- A user holding only the object-scoped permission, used to witness C2. -/
def objOnlyUser : User Unit :=
  ⟨fun _ => false, fun _ _ => true, fun _ => false, fun _ _ => true⟩

/-- Witness for C2: with only the object-scoped check true, the assertion
hypothesis holds and `has_object_permission` returns `ok true`. -/
theorem simple_permission_contract_witness :
    SimpleDjangoObjectPermissions.has_object_permission objOnlyUser "app.perm" () =
      Except.ok true :=
  ((simple_permission_contract objOnlyUser "app.perm" ()).2 (by simp [objOnlyUser])).mpr
    (Or.inr rfl)

namespace GenericDjangoViewsetPermissions

/-- `default_actions_to_perms_map`: the built-in action-to-templates dict. -/
def default_actions_to_perms_map : PermMap :=
  [("list", ["%(app_label)s.view_%(model_name)s"]),
   ("retrieve", ["%(app_label)s.view_%(model_name)s"]),
   ("create", ["%(app_label)s.add_%(model_name)s"]),
   ("update", ["%(app_label)s.change_%(model_name)s"]),
   ("partial_update", ["%(app_label)s.change_%(model_name)s"]),
   ("destroy", ["%(app_label)s.delete_%(model_name)s"])]

/-- `default_list_routes`: actions that never invoke `get_object()`. -/
def default_list_routes : List String :=
  ["list", "create"]

/-- `get_actions_to_perms_map`: copy of the default map updated with the
subclass override (`getattr(self, 'actions_to_perms_map', {})`); the
memoisation in `_saved_actions_to_perms_map` caches this pure value. -/
def get_actions_to_perms_map (actions_to_perms_map : PermMap) : PermMap :=
  dictUpdate default_actions_to_perms_map actions_to_perms_map

/-- `get_permissions_for_action`: substitutes `app_label` / `model_name`
of `view.get_queryset().model._meta` into each template of the merged map
entry for `action`; a `KeyError` (no entry, in particular `action = None`)
is re-raised as `ImproperlyConfigured`. -/
def get_permissions_for_action {O : Type} (actions_to_perms_map : PermMap)
    (action : Option String) (view : Viewset O) : Except PermError (List String) :=
  match lookupAction (get_actions_to_perms_map actions_to_perms_map) action with
  | some perms =>
    Except.ok (perms.map (pyFormat view.app_label view.model_name))
  | none =>
    Except.error (PermError.improperlyConfigured
      ("Missing GenericDjangoViewsetPermissions action permission for " ++ pyStr action))

/-- The loop body of `get_list_actions` for one method: true when the
method is added to the list-action set. Pre-3.9 branch: `bind_to_methods`
is truthy (present and non-empty), every bound verb lowercases into the
tuple `('header', 'get', 'post')`, and `detail` is exactly `False`.
Post-3.9 branch: `bind_to_methods` falsy, a `mapping` attribute exists,
every mapping key lowercases into the same tuple, and `detail` is exactly
`False`. -/
def list_route_matches (method : Method) : Bool :=
  let truthy := match method.bind_to_methods with
    | some l => !l.isEmpty
    | none => false
  let safe := fun m => pyLower m == "header" || pyLower m == "get" || pyLower m == "post"
  let pre := truthy &&
    (match method.bind_to_methods with
     | some l => l.all safe
     | none => false) &&
    (method.detail == some false)
  let post := !truthy &&
    (match method.mapping with
     | some ks => ks.all safe && (method.detail == some false)
     | none => false)
  pre || post

/-- `get_list_actions`: the default list routes plus every discovered
matching method name. The Python code builds a set cached on the viewset
class; the embedding returns the list whose membership is that set. -/
def get_list_actions (viewset_methods : List Method) : List String :=
  default_list_routes ++ (viewset_methods.filter list_route_matches).map Method.name

/-- Python `action in list_actions` where `action` may be `None` and the
collection holds strings: `None` matches nothing. -/
def actionIn (list_actions : List String) : Option String → Bool
  | some a => list_actions.contains a
  | none => false

/-- `GenericDjangoViewsetPermissions.has_permission`. `debug` is
`settings.DEBUG`. OPTIONS requests in debug mode are granted before any
lookup; otherwise the permissions for the action are computed (an
`ImproperlyConfigured` propagates), the global `user.has_perms` check
grants, then non-list actions call `viewset.get_object()` - whose
exception propagates - and grant on successful resolution; list actions
deny. -/
def has_permission {O : Type} (debug : Bool) (request : Request) (user : User O)
    (actions_to_perms_map : PermMap) (viewset : Viewset O) : Except PermError Bool :=
  let action := viewset.action
  if request.method == "OPTIONS" && debug then
    Except.ok true
  else
    match get_permissions_for_action actions_to_perms_map action viewset with
    | Except.error e => Except.error e
    | Except.ok perms =>
      if user.has_perms perms then
        Except.ok true
      else if !actionIn (get_list_actions viewset.methods) action then
        match viewset.get_object with
        | Except.ok _ => Except.ok true
        | Except.error e => Except.error (PermError.objectResolutionError e)
      else
        Except.ok false

/-- `GenericDjangoViewsetPermissions.has_object_permission`: same OPTIONS
debug bypass, then `user.has_perms(perms, obj)` for the action's
permissions. -/
def has_object_permission {O : Type} (debug : Bool) (request : Request) (user : User O)
    (actions_to_perms_map : PermMap) (viewset : Viewset O) (obj : O) :
    Except PermError Bool :=
  let action := viewset.action
  if request.method == "OPTIONS" && debug then
    Except.ok true
  else
    match get_permissions_for_action actions_to_perms_map action viewset with
    | Except.error e => Except.error e
    | Except.ok perms => Except.ok (user.has_perms_obj perms obj)

end GenericDjangoViewsetPermissions

namespace GenericDjangoViewsetWithoutModelPermissions

/-- `GenericDjangoViewsetWithoutModelPermissions.get_permissions_for_action`:
the caller-supplied map is used as-is (`get_actions_to_perms_map` merely
returns the attribute), the entry is copied verbatim with no substitution,
and a missing entry raises `ImproperlyConfigured`. -/
def get_permissions_for_action (actions_to_perms_map : PermMap)
    (action : Option String) : Except PermError (List String) :=
  match lookupAction actions_to_perms_map action with
  | some perms => Except.ok (perms.map fun perm => perm)
  | none =>
    Except.error (PermError.improperlyConfigured
      ("Missing GenericDjangoViewsetWithoutModelPermissions action permission for " ++
        pyStr action))

/-- `GenericDjangoViewsetWithoutModelPermissions.has_permission`: an absent
(`None`) action is granted unconditionally; otherwise the mapped
permissions are fetched (an `ImproperlyConfigured` propagates) and the
global `user.has_perms` check decides. The source never reads
`settings.DEBUG` or `request.method`. -/
def has_permission {O : Type} (request : Request) (user : User O)
    (actions_to_perms_map : PermMap) (viewset : Viewset O) : Except PermError Bool :=
  match viewset.action with
  | none => Except.ok true
  | some a =>
    match get_permissions_for_action actions_to_perms_map (some a) with
    | Except.error e => Except.error e
    | Except.ok perms =>
      if user.has_perms perms then Except.ok true else Except.ok false

/-- `GenericDjangoViewsetWithoutModelPermissions.has_object_permission`:
`user.has_perms(perms, obj)` for the action's verbatim permissions. -/
def has_object_permission {O : Type} (user : User O) (actions_to_perms_map : PermMap)
    (viewset : Viewset O) (obj : O) : Except PermError Bool :=
  match get_permissions_for_action actions_to_perms_map viewset.action with
  | Except.error e => Except.error e
  | Except.ok perms => Except.ok (user.has_perms_obj perms obj)

end GenericDjangoViewsetWithoutModelPermissions

/-- Lookup distributes over append: the first list wins. -/
theorem dictLookup_append (l₁ l₂ : PermMap) (k : String) :
    dictLookup (l₁ ++ l₂) k =
      match dictLookup l₁ k with
      | some v => some v
      | none => dictLookup l₂ k := by
  induction l₁ with
  | nil => simp [dictLookup]
  | cons hd tl ih =>
    obtain ⟨k', v⟩ := hd
    by_cases h : k' = k <;> simp [dictLookup, h, ih]

/-- Lookup in the key-preserving override pass of `dictUpdate`: a key bound
in `base` yields the override value when the override binds it, the base
value otherwise; an unbound key stays unbound. -/
theorem dictLookup_map_override (base ov : PermMap) (k : String) :
    dictLookup (base.map fun kv =>
        match dictLookup ov kv.1 with
        | some v => (kv.1, v)
        | none => kv) k =
      match dictLookup base k, dictLookup ov k with
      | none, _ => none
      | some _, some v => some v
      | some w, none => some w := by
  induction base with
  | nil => simp [dictLookup]
  | cons hd tl ih =>
    obtain ⟨k₀, v₀⟩ := hd
    by_cases h : k₀ = k
    · subst h
      cases hov : dictLookup ov k₀ <;> simp [dictLookup, hov]
    · cases hov : dictLookup ov k₀ <;> simp [dictLookup, h, hov, ih]

/-- Lookup in a filter whose predicate only inspects the key. -/
theorem dictLookup_filter_key (ov : PermMap) (p : String → Bool) (k : String) :
    dictLookup (ov.filter fun kv => p kv.1) k =
      if p k then dictLookup ov k else none := by
  induction ov with
  | nil => simp [dictLookup]
  | cons hd tl ih =>
    obtain ⟨k₀, v₀⟩ := hd
    by_cases h : k₀ = k
    · subst h
      cases hp : p k₀ <;> simp [dictLookup, hp, ih]
    · cases hp : p k₀ <;> simp [dictLookup, h, hp, ih]

/-- C4: in the merged map of the model-aware policy, every key present in
the override maps to the override's value and every other key to its
default; concretely, overriding only `create` (to `[]`) leaves `destroy` at
its default and sends `create` to `[]`. -/
theorem gdvp_perms_map_merge (actions_to_perms_map : PermMap) (k : String) :
    (dictLookup (GenericDjangoViewsetPermissions.get_actions_to_perms_map
        actions_to_perms_map) k =
      match dictLookup actions_to_perms_map k with
      | some v => some v
      | none =>
        dictLookup GenericDjangoViewsetPermissions.default_actions_to_perms_map k) ∧
    dictLookup (GenericDjangoViewsetPermissions.get_actions_to_perms_map
        [("create", [])]) "destroy" = some ["%(app_label)s.delete_%(model_name)s"] ∧
    dictLookup (GenericDjangoViewsetPermissions.get_actions_to_perms_map
        [("create", [])]) "create" = some [] := by
  refine ⟨?_, by decide, by decide⟩
  unfold GenericDjangoViewsetPermissions.get_actions_to_perms_map dictUpdate
  rw [dictLookup_append, dictLookup_map_override,
    dictLookup_filter_key _ (fun x =>
      (dictLookup GenericDjangoViewsetPermissions.default_actions_to_perms_map x).isNone)]
  cases hb : dictLookup GenericDjangoViewsetPermissions.default_actions_to_perms_map k <;>
    cases ho : dictLookup actions_to_perms_map k <;> simp [hb, ho]

/-- C3: for every action with an entry in the merged map,
`get_permissions_for_action` returns exactly the entry's templates with
`app_label` / `model_name` substituted; for every action without an entry
it raises `ImproperlyConfigured`; concretely, the default map at
`app_label = "blog"`, `model_name = "post"`, action `"create"` yields
`["blog.add_post"]`. -/
theorem gdvp_get_permissions_for_action_contract {O : Type}
    (actions_to_perms_map : PermMap) (view : Viewset O) (a : String) :
    (∀ tmpls,
      dictLookup (GenericDjangoViewsetPermissions.get_actions_to_perms_map
          actions_to_perms_map) a = some tmpls →
      GenericDjangoViewsetPermissions.get_permissions_for_action actions_to_perms_map
          (some a) view =
        Except.ok (tmpls.map (pyFormat view.app_label view.model_name))) ∧
    (dictLookup (GenericDjangoViewsetPermissions.get_actions_to_perms_map
        actions_to_perms_map) a = none →
      GenericDjangoViewsetPermissions.get_permissions_for_action actions_to_perms_map
          (some a) view =
        Except.error (PermError.improperlyConfigured
          ("Missing GenericDjangoViewsetPermissions action permission for " ++ a))) ∧
    GenericDjangoViewsetPermissions.get_permissions_for_action (O := Unit) []
        (some "create") ⟨some "create", "blog", "post", [], Except.ok ()⟩ =
      Except.ok ["blog.add_post"] := by
  refine ⟨?_, ?_, by decide⟩
  · intro tmpls h
    simp [GenericDjangoViewsetPermissions.get_permissions_for_action, lookupAction, h]
  · intro h
    simp [GenericDjangoViewsetPermissions.get_permissions_for_action, lookupAction, h,
      pyStr]

/-- Witness for C3: the concrete default-map scenario, obtained from the
first conjunct of the contract with its hypothesis discharged. -/
theorem gdvp_get_permissions_for_action_contract_witness :
    GenericDjangoViewsetPermissions.get_permissions_for_action (O := Unit) []
      (some "create") ⟨some "create", "blog", "post", [], Except.ok ()⟩ =
      Except.ok ["blog.add_post"] := by
  have h := (gdvp_get_permissions_for_action_contract (O := Unit) []
      ⟨some "create", "blog", "post", [], Except.ok ()⟩ "create").1
      ["%(app_label)s.add_%(model_name)s"] (by decide)
  exact h.trans (by decide)

/-- A user for whom every permission check fails, used in witnesses. -/
def noPermUser : User Unit :=
  ⟨fun _ => false, fun _ _ => false, fun _ => false, fun _ _ => false⟩

/-- C5: outside the OPTIONS-in-debug bypass, for an action in the computed
list-action set with a mapped permission entry, `has_permission` returns
exactly the global `user.has_perms` verdict, whatever `get_object` would
do - in particular a failing `get_object` is never invoked and a denial is
a plain `ok false`. -/
theorem gdvp_list_action_global_only {O : Type} (debug : Bool) (request : Request)
    (user : User O) (actions_to_perms_map : PermMap) (viewset : Viewset O)
    (a : String) (tmpls : List String)
    (hopt : ¬(request.method = "OPTIONS" ∧ debug = true))
    (ha : viewset.action = some a)
    (hmap : dictLookup (GenericDjangoViewsetPermissions.get_actions_to_perms_map
        actions_to_perms_map) a = some tmpls)
    (hlist : (GenericDjangoViewsetPermissions.get_list_actions viewset.methods).contains a
      = true) :
    ∀ go : Except String O,
      GenericDjangoViewsetPermissions.has_permission debug request user
          actions_to_perms_map
          ⟨viewset.action, viewset.app_label, viewset.model_name, viewset.methods, go⟩ =
        Except.ok (user.has_perms
          (tmpls.map (pyFormat viewset.app_label viewset.model_name))) := by
  intro go
  have hbyp : (request.method == "OPTIONS" && debug) = false := by
    cases hm : request.method == "OPTIONS" <;> cases hd : debug <;> simp_all
  simp only [GenericDjangoViewsetPermissions.has_permission, hbyp, Bool.false_eq_true,
    if_false, ha]
  simp only [GenericDjangoViewsetPermissions.get_permissions_for_action, lookupAction,
    hmap]
  have hmem : a ∈ GenericDjangoViewsetPermissions.get_list_actions viewset.methods := by
    simpa using hlist
  cases hp : user.has_perms (tmpls.map (pyFormat viewset.app_label viewset.model_name)) <;>
    simp [hp, GenericDjangoViewsetPermissions.actionIn, hmem]

/-- Witness for C5: no global permissions, action `"list"`, a `get_object`
that would raise - the check still returns a plain `ok false`. -/
theorem gdvp_list_action_global_only_witness :
    GenericDjangoViewsetPermissions.has_permission false ⟨"GET"⟩ noPermUser []
      ⟨some "list", "blog", "post", [], Except.error "Http404"⟩ = Except.ok false := by
  have h := gdvp_list_action_global_only false ⟨"GET"⟩ noPermUser []
      ⟨some "list", "blog", "post", [], Except.ok ()⟩ "list"
      ["%(app_label)s.view_%(model_name)s"] (by simp) rfl (by decide) (by decide)
      (Except.error "Http404")
  exact h

/-- C6: outside the OPTIONS-in-debug bypass, for a detail action (not in
the list-action set) with a mapped entry whose global check fails,
`has_permission` returns `ok true` when `viewset.get_object()` resolves,
and propagates the resolution failure unchanged - never converting it into
`ok false`. -/
theorem gdvp_detail_action_resolution {O : Type} (debug : Bool) (request : Request)
    (user : User O) (actions_to_perms_map : PermMap) (viewset : Viewset O)
    (a : String) (tmpls : List String)
    (hopt : ¬(request.method = "OPTIONS" ∧ debug = true))
    (ha : viewset.action = some a)
    (hmap : dictLookup (GenericDjangoViewsetPermissions.get_actions_to_perms_map
        actions_to_perms_map) a = some tmpls)
    (hglob : user.has_perms (tmpls.map (pyFormat viewset.app_label viewset.model_name))
      = false)
    (hdetail : (GenericDjangoViewsetPermissions.get_list_actions viewset.methods).contains a
      = false) :
    (∀ o : O, viewset.get_object = Except.ok o →
      GenericDjangoViewsetPermissions.has_permission debug request user
          actions_to_perms_map viewset = Except.ok true) ∧
    (∀ e : String, viewset.get_object = Except.error e →
      GenericDjangoViewsetPermissions.has_permission debug request user
          actions_to_perms_map viewset =
        Except.error (PermError.objectResolutionError e)) := by
  have hbyp : (request.method == "OPTIONS" && debug) = false := by
    cases hm : request.method == "OPTIONS" <;> cases hd : debug <;> simp_all
  have hnmem : a ∉ GenericDjangoViewsetPermissions.get_list_actions viewset.methods := by
    simpa using hdetail
  constructor
  · intro o hgo
    simp only [GenericDjangoViewsetPermissions.has_permission, hbyp, Bool.false_eq_true,
      if_false, ha]
    simp [GenericDjangoViewsetPermissions.get_permissions_for_action, lookupAction,
      hmap, hglob, GenericDjangoViewsetPermissions.actionIn, hnmem, hgo]
  · intro e hgo
    simp only [GenericDjangoViewsetPermissions.has_permission, hbyp, Bool.false_eq_true,
      if_false, ha]
    simp [GenericDjangoViewsetPermissions.get_permissions_for_action, lookupAction,
      hmap, hglob, GenericDjangoViewsetPermissions.actionIn, hnmem, hgo]

/-- Witness for C6: action `"retrieve"`, no global permissions, a failing
`get_object` - the failure propagates as `objectResolutionError`. -/
theorem gdvp_detail_action_resolution_witness :
    GenericDjangoViewsetPermissions.has_permission false ⟨"GET"⟩ noPermUser []
      ⟨some "retrieve", "blog", "post", [], Except.error "Http404"⟩ =
      Except.error (PermError.objectResolutionError "Http404") := by
  have h := (gdvp_detail_action_resolution false ⟨"GET"⟩ noPermUser []
      ⟨some "retrieve", "blog", "post", [], Except.error "Http404"⟩ "retrieve"
      ["%(app_label)s.view_%(model_name)s"] (by simp) rfl (by decide) rfl
      (by decide)).2 "Http404" rfl
  exact h

/-- A viewset method bound only to the HTTP verb HEAD (`'head'` in DRF's
`bind_to_methods`) and explicitly marked `detail = False`. -/
def head_only_route : Method :=
  ⟨"latest", some ["head"], none, some false⟩

/-- C7 (code evidence): the claim says a non-detail method bound only to
verbs among HEAD/GET/POST - for example only HEAD - joins the list-action
set. The code instead tests `m.lower() in ('header', 'get', 'post')`:
`'header'` is not an HTTP verb, so a method bound only to `'head'` is
excluded while one bound only to `'get'` is included. The computed set for
a class exposing only `head_only_route` stays at the defaults. -/
theorem gdvp_head_only_route_excluded :
    GenericDjangoViewsetPermissions.list_route_matches head_only_route = false ∧
    GenericDjangoViewsetPermissions.get_list_actions [head_only_route] =
      ["list", "create"] ∧
    head_only_route.bind_to_methods = some ["head"] ∧
    head_only_route.detail = some false ∧
    GenericDjangoViewsetPermissions.list_route_matches
      ⟨"latest", some ["get"], none, some false⟩ = true := by
  decide

/-- C8: in the model-aware policy an OPTIONS request with `debug = true` is
granted unconditionally by both checks, for any viewset (any action, even
an unmapped or absent one - so before any permission lookup); with
`debug = false` the request method does not influence either check, i.e.
OPTIONS follows the normal evaluation path. -/
theorem gdvp_options_debug_bypass {O : Type} (user : User O)
    (actions_to_perms_map : PermMap) (viewset : Viewset O) (obj : O) (m : String) :
    GenericDjangoViewsetPermissions.has_permission true ⟨"OPTIONS"⟩ user
        actions_to_perms_map viewset = Except.ok true ∧
    GenericDjangoViewsetPermissions.has_object_permission true ⟨"OPTIONS"⟩ user
        actions_to_perms_map viewset obj = Except.ok true ∧
    GenericDjangoViewsetPermissions.has_permission false ⟨"OPTIONS"⟩ user
        actions_to_perms_map viewset =
      GenericDjangoViewsetPermissions.has_permission false ⟨m⟩ user
        actions_to_perms_map viewset ∧
    GenericDjangoViewsetPermissions.has_object_permission false ⟨"OPTIONS"⟩ user
        actions_to_perms_map viewset obj =
      GenericDjangoViewsetPermissions.has_object_permission false ⟨m⟩ user
        actions_to_perms_map viewset obj := by
  refine ⟨?_, ?_, ?_, ?_⟩ <;>
    simp [GenericDjangoViewsetPermissions.has_permission,
      GenericDjangoViewsetPermissions.has_object_permission]

/-- C10: in the model-aware policy, outside the OPTIONS-in-debug bypass, a
viewset whose action is `None` makes `has_permission` raise
`ImproperlyConfigured` (the `None` action has no entry in the string-keyed
map), rather than returning a boolean. -/
theorem gdvp_none_action_raises {O : Type} (debug : Bool) (request : Request)
    (user : User O) (actions_to_perms_map : PermMap) (viewset : Viewset O)
    (hopt : ¬(request.method = "OPTIONS" ∧ debug = true))
    (ha : viewset.action = none) :
    GenericDjangoViewsetPermissions.has_permission debug request user
        actions_to_perms_map viewset =
      Except.error (PermError.improperlyConfigured
        "Missing GenericDjangoViewsetPermissions action permission for None") := by
  have hbyp : (request.method == "OPTIONS" && debug) = false := by
    cases hm : request.method == "OPTIONS" <;> cases hd : debug <;> simp_all
  simp only [GenericDjangoViewsetPermissions.has_permission, hbyp, Bool.false_eq_true,
    if_false, ha]
  simp only [GenericDjangoViewsetPermissions.get_permissions_for_action, lookupAction]
  rfl

/-- Witness for C10: a GET request in non-debug mode against a viewset with
no action raises the configuration error. -/
theorem gdvp_none_action_raises_witness :
    GenericDjangoViewsetPermissions.has_permission false ⟨"GET"⟩ noPermUser []
      ⟨none, "blog", "post", [], Except.ok ()⟩ =
      Except.error (PermError.improperlyConfigured
        "Missing GenericDjangoViewsetPermissions action permission for None") :=
  gdvp_none_action_raises false ⟨"GET"⟩ noPermUser []
    ⟨none, "blog", "post", [], Except.ok ()⟩ (by simp) rfl

/-- C9: the model-less policy grants unconditionally when the action is
`None` (for every request, hence independent of method and of any debug
flag, which the code never reads); for a mapped action it grants exactly
the global `user.has_perms` verdict on the verbatim permission strings;
for an unmapped action it raises `ImproperlyConfigured` - there is no
default map to fall back to. -/
theorem gdvwm_has_permission_contract {O : Type} (request : Request) (user : User O)
    (actions_to_perms_map : PermMap) (viewset : Viewset O) :
    (viewset.action = none →
      GenericDjangoViewsetWithoutModelPermissions.has_permission request user
        actions_to_perms_map viewset = Except.ok true) ∧
    (∀ a perms, viewset.action = some a →
      dictLookup actions_to_perms_map a = some perms →
      GenericDjangoViewsetWithoutModelPermissions.has_permission request user
        actions_to_perms_map viewset = Except.ok (user.has_perms perms)) ∧
    (∀ a, viewset.action = some a →
      dictLookup actions_to_perms_map a = none →
      GenericDjangoViewsetWithoutModelPermissions.has_permission request user
        actions_to_perms_map viewset =
        Except.error (PermError.improperlyConfigured
          ("Missing GenericDjangoViewsetWithoutModelPermissions action permission for "
            ++ a))) := by
  refine ⟨?_, ?_, ?_⟩
  · intro h
    simp [GenericDjangoViewsetWithoutModelPermissions.has_permission, h]
  · intro a perms ha hm
    simp only [GenericDjangoViewsetWithoutModelPermissions.has_permission, ha,
      GenericDjangoViewsetWithoutModelPermissions.get_permissions_for_action,
      lookupAction, hm, List.map_id']
    cases hp : user.has_perms perms <;> simp [hp]
  · intro a ha hm
    simp [GenericDjangoViewsetWithoutModelPermissions.has_permission, ha,
      GenericDjangoViewsetWithoutModelPermissions.get_permissions_for_action,
      lookupAction, hm, pyStr]

/-- Witness for C9: an absent (`None`) action is granted for a user with no
permissions at all, on an ordinary GET request. -/
theorem gdvwm_has_permission_contract_witness :
    GenericDjangoViewsetWithoutModelPermissions.has_permission ⟨"GET"⟩ noPermUser []
      ⟨none, "", "", [], Except.ok ()⟩ = Except.ok true :=
  (gdvwm_has_permission_contract ⟨"GET"⟩ noPermUser []
    ⟨none, "", "", [], Except.ok ()⟩).1 rfl
